import Mathlib

/-!
Verification of the agent control loop and tool-dispatch contract of the
EXCEL-Agent repository (src/agent.py, src/tools.py, src/processor.py).

The embedding models JSON values, Python dicts (as association lists with
first-key-wins lookup, mirroring dict key uniqueness), the tool registry of
src/tools.py with each implementation's formal parameter list taken from the
function signatures in src/processor.py, the dispatcher `execute_tool`, the
path-safety helper `_get_safe_path`, and the bounded ReAct loop
`run_agent_task`.  The external pandas/openpyxl work inside each tool's
try-block, the LLM completion call, `json.loads` and `json.dumps` are opaque
collaborators and are therefore universally quantified parameters of the model.
-/

namespace ExcelAgent

/-- A JSON value, as produced by `json.loads` and consumed by the agent loop
and dispatcher. `vNum` models JSON numbers (integer-valued is enough for the
claims, which never compute with numbers). -/
inductive Val where
  | vNull
  | vBool (b : Bool)
  | vNum (n : Int)
  | vStr (s : String)
  | vList (xs : List Val)
  | vDict (kvs : List (String × Val))

instance : Inhabited Val := ⟨Val.vNull⟩

/-- A Python dict with string keys, as an association list.  Python dicts have
unique keys; lookup takes the first occurrence, which coincides with dict
semantics on all dicts the model builds. -/
abbrev Dict := List (String × Val)

/-- Dict lookup: `d.get(k)` / `k in d`. -/
def dlookup (d : Dict) (k : String) : Option Val :=
  match d with
  | [] => none
  | (k2, v) :: rest => if k2 = k then some v else dlookup rest k

/-- `a if a is not None else b` on option values (used to state merge lookups). -/
def optOr (a b : Option Val) : Option Val :=
  match a with
  | some v => some v
  | none => b

/-- `\x7b**context, **parameters\x7d` (src/tools.py line 699): context entries in
order, each overridden by the parameters value when the key collides, then the
parameters entries whose keys are new.  Mirrors Python dict-merge ordering and
precedence (later mapping wins). -/
def dictMerge (context parameters : Dict) : Dict :=
  (context.map fun kv => (kv.1, (dlookup parameters kv.1).getD kv.2)) ++
    parameters.filter fun kv => (dlookup context kv.1).isNone

/-- Python truthiness of a JSON value (`if not tool_call`, src/agent.py line 67). -/
def pyTruthy : Val → Bool
  | .vNull => false
  | .vBool b => b
  | .vNum n => n != 0
  | .vStr s => !s.isEmpty
  | .vList xs => !xs.isEmpty
  | .vDict kvs => !kvs.isEmpty

/-- Python `str()` / f-string rendering of a JSON value, used when a value
reaches an f-string or a str-typed position (e.g. a non-string `tool_name`).
Registry keys are non-numeric identifier strings, so this rendering never
collides with a registered tool name unless the value is that very string. -/
def pyStrOfVal : Val → String
  | .vNull => "None"
  | .vBool true => "True"
  | .vBool false => "False"
  | .vNum n => toString n
  | .vStr s => s
  | .vList _ => "[...]"
  | .vDict _ => "\x7b...\x7d"

/-- Bool-valued list prefix test (chars compared by equality). -/
def chPrefix : List Char → List Char → Bool
  | [], _ => true
  | _ :: _, [] => false
  | a :: as, b :: bs => a == b && chPrefix as bs

/-- Bool-valued list infix test. -/
def chInfix (p : List Char) (l : List Char) : Bool :=
  match l with
  | [] => p.isEmpty
  | _ :: t => chPrefix p l || chInfix p t

/-- Python `sub in s` on strings: substring containment. -/
def strContains (s sub : String) : Bool := chInfix sub.data s.data

/-- Python `s.startswith(sub)`; `os.path.isabs(f)` on POSIX is
`strStartsWith f "/"`. -/
def strStartsWith (s sub : String) : Bool := chPrefix sub.data s.data

/-- Python `s.endswith(sub)`. -/
def strEndsWith (s sub : String) : Bool := chPrefix sub.data.reverse s.data.reverse

/-- `os.path.join(dir, fn)` on POSIX, two arguments. -/
def pathJoin (dir fn : String) : String :=
  if strStartsWith fn "/" then fn
  else if dir = "" then fn
  else if strEndsWith dir "/" then dir ++ fn
  else dir ++ "/" ++ fn

/-- The `ValueError` message of `_get_safe_path` (src/processor.py line 27). -/
def invalidFilenameMsg (filename : String) : String :=
  "Invalid filename '" ++ filename ++ "'. Must be a relative path with no directory traversal."

/-- src/processor.py lines 24-28: `_get_safe_path`.  Raises `ValueError` (the
`Except.error` branch) when the filename contains `..` or is absolute,
otherwise joins directory and filename. -/
def _get_safe_path (output_dir filename : String) : Except String String :=
  if strContains filename ".." || strStartsWith filename "/" then
    .error (invalidFilenameMsg filename)
  else
    .ok (pathJoin output_dir filename)

-- Basic lookup lemmas used throughout.

theorem dlookup_append (a b : Dict) (k : String) :
    dlookup (a ++ b) k = optOr (dlookup a k) (dlookup b k) := by
  induction a with
  | nil => simp [dlookup, optOr]
  | cons kv rest ih =>
    by_cases h : kv.1 = k
    · simp [dlookup, h, optOr]
    · simp [dlookup, h, ih]

theorem dlookup_filter (d : Dict) (f : String → Bool) (k : String) :
    dlookup (d.filter fun kv => f kv.1) k =
      if f k then dlookup d k else none := by
  induction d with
  | nil => simp [dlookup]
  | cons kv rest ih =>
    by_cases hk : kv.1 = k
    · subst hk
      by_cases hf : f kv.1
      · simp [List.filter, hf, dlookup]
      · simp [List.filter, hf, dlookup, ih]
    · by_cases hf : f kv.1
      · simp [List.filter, hf, dlookup, hk, ih]
      · simp [List.filter, hf, dlookup, hk, ih]

theorem dlookup_map_override (context parameters : Dict) (k : String) :
    dlookup (context.map fun kv => (kv.1, (dlookup parameters kv.1).getD kv.2)) k =
      (dlookup context k).map fun v => (dlookup parameters k).getD v := by
  induction context with
  | nil => simp [dlookup]
  | cons kv rest ih =>
    by_cases hk : kv.1 = k
    · subst hk; simp [dlookup]
    · simp [dlookup, hk, ih]

/-- Lookup in the Python merge `\x7b**context, **parameters\x7d`: the parameters
value when present, else the context value. -/
theorem dlookup_dictMerge (context parameters : Dict) (k : String) :
    dlookup (dictMerge context parameters) k =
      optOr (dlookup parameters k) (dlookup context k) := by
  unfold dictMerge
  rw [dlookup_append, dlookup_map_override,
    dlookup_filter parameters (fun x => (dlookup context x).isNone) k]
  cases hc : dlookup context k with
  | none =>
    simp [hc, optOr]
    cases dlookup parameters k <;> simp [optOr]
  | some c =>
    simp [hc, optOr]
    cases dlookup parameters k <;> simp [optOr]

-- ## Tool registry and dispatcher (src/tools.py, src/processor.py)

/-- Abstract semantics of the external pandas/openpyxl work.  Each tool body
in src/processor.py runs inside a `try` block; the model leaves its behavior
opaque.  `readBody name args` is the body outcome of a read-only tool
(read-only tools write no files).  `writeBody name path args` is the body
outcome of a write tool together with the list of file paths it writes; it
receives the `final_output_path` computed by `_get_safe_path` before the
`try`.  `chartDefaultName` is the timestamped default
`chart_<timestamp>.png` of `create_chart` (src/processor.py lines 111-113). -/
structure Env where
  readBody : String → Dict → Except String Dict
  writeBody : String → String → Dict → Except String Dict × List String
  chartDefaultName : String

/-- One registry entry: the implementation's formal parameter names (what
`inspect.signature(...).parameters.keys()` yields at src/tools.py line 695-696)
and the implementation itself, returning the result-or-exception and the list
of files it wrote. -/
structure Tool where
  accepted : List String
  run : Dict → Except String Dict × List String

/-- `except Exception as e: raise Exception(f"An unexpected error ...: \x7be\x7d")`:
every processor tool re-raises body exceptions with a per-tool message text. -/
def wrapBodyErr (pre : String) : Except String Dict → Except String Dict
  | .ok d => .ok d
  | .error e => .error (pre ++ e)

/-- A read-only processor tool: the whole body is inside the `try`, errors are
re-raised with the tool's message prefix, nothing is written. -/
def readRun (pre : String) (body : Dict → Except String Dict) : Dict → Except String Dict × List String :=
  fun args => (wrapBodyErr pre (body args), [])

/-- The Python message of the `TypeError` raised by `**kwargs` binding or by
`'..' in filename` when the path arguments are missing or not strings; the
claims never depend on its text. -/
def badPathArgsMsg : String := "missing or non-string path argument"

/-- A write tool of src/processor.py: `final_output_path =
_get_safe_path(<dirKey>, output_filename)` runs BEFORE the `try`, so its
`ValueError` propagates unwrapped and the body is never entered (nothing is
written); body exceptions are re-raised with the tool's message prefix. -/
def runWrite (dirKey pre : String) (body : String → Dict → Except String Dict × List String)
    (args : Dict) : Except String Dict × List String :=
  match dlookup args dirKey, dlookup args "output_filename" with
  | some (.vStr dir), some (.vStr fn) =>
    match _get_safe_path dir fn with
    | .error e => (.error e, [])
    | .ok p =>
      let r := body p args
      (wrapBodyErr pre r.1, r.2)
  | _, _ => (.error badPathArgsMsg, [])

/-- `create_chart` (src/processor.py lines 109-127): `output_filename` is
optional; missing or `None` selects the timestamped default name before
`_get_safe_path` runs against `chart_output_dir`. -/
def runCreateChart (defaultName pre : String)
    (body : String → Dict → Except String Dict × List String)
    (args : Dict) : Except String Dict × List String :=
  match dlookup args "chart_output_dir" with
  | some (.vStr dir) =>
    match dlookup args "output_filename" with
    | some (.vStr fn) =>
      match _get_safe_path dir fn with
      | .error e => (.error e, [])
      | .ok p =>
        let r := body p args
        (wrapBodyErr pre r.1, r.2)
    | some .vNull | none =>
      match _get_safe_path dir defaultName with
      | .error e => (.error e, [])
      | .ok p =>
        let r := body p args
        (wrapBodyErr pre r.1, r.2)
    | _ => (.error badPathArgsMsg, [])
  | _ => (.error badPathArgsMsg, [])

/-- The `TOOLS` list of src/tools.py, reduced to what the dispatcher reads:
each tool's name and implementation.  Each `accepted` list is the formal
parameter list of the corresponding function in src/processor.py, in source
order; each write tool's run is the shared before-try path check around its
opaque body. -/
def mkRegistry (e : Env) : List (String × Tool) := [
  ("get_data_summary",
    ⟨["file_path", "sheet_name"],
      readRun "An unexpected error occurred while getting data summary: " (e.readBody "get_data_summary")⟩),
  ("read_rows",
    ⟨["file_path", "sheet_name", "offset", "limit"],
      readRun "An unexpected error occurred while reading rows: " (e.readBody "read_rows")⟩),
  ("get_unique_values",
    ⟨["file_path", "column_name", "sheet_name"],
      readRun "An unexpected error occurred while getting unique values: " (e.readBody "get_unique_values")⟩),
  ("column_aggregate",
    ⟨["file_path", "column_name", "aggregate_function", "sheet_name"],
      readRun "An unexpected error occurred during aggregation: " (e.readBody "column_aggregate")⟩),
  ("filter_rows",
    ⟨["file_path", "file_output_dir", "output_filename", "column_name", "operator", "value", "sheet_name"],
      runWrite "file_output_dir" "An unexpected error occurred while filtering rows: " (e.writeBody "filter_rows")⟩),
  ("sort_data",
    ⟨["file_path", "file_output_dir", "output_filename", "sort_by_column", "ascending", "sheet_name"],
      runWrite "file_output_dir" "An unexpected error occurred while sorting data: " (e.writeBody "sort_data")⟩),
  ("add_column_from_formula",
    ⟨["file_path", "file_output_dir", "output_filename", "new_column_name", "col1", "operator", "col2", "sheet_name"],
      runWrite "file_output_dir" "An unexpected error occurred while adding column: " (e.writeBody "add_column_from_formula")⟩),
  ("create_pivot_table",
    ⟨["file_path", "file_output_dir", "output_filename", "index_column", "columns_column", "values_column", "agg_func", "sheet_name"],
      runWrite "file_output_dir" "An unexpected error occurred while creating pivot table: " (e.writeBody "create_pivot_table")⟩),
  ("create_chart",
    ⟨["file_path", "chart_output_dir", "chart_type", "x_column", "y_column", "output_filename", "sheet_name"],
      runCreateChart e.chartDefaultName "An unexpected error occurred while creating chart: " (e.writeBody "create_chart")⟩),
  ("delete_columns",
    ⟨["file_path", "file_output_dir", "output_filename", "columns_to_delete", "sheet_name"],
      runWrite "file_output_dir" "An unexpected error occurred while deleting columns: " (e.writeBody "delete_columns")⟩),
  ("rename_column",
    ⟨["file_path", "file_output_dir", "output_filename", "old_column_name", "new_column_name", "sheet_name"],
      runWrite "file_output_dir" "An unexpected error occurred while renaming column: " (e.writeBody "rename_column")⟩),
  ("handle_duplicates",
    ⟨["file_path", "file_output_dir", "output_filename", "subset_columns", "action", "sheet_name"],
      runWrite "file_output_dir" "An unexpected error occurred while handling duplicates: " (e.writeBody "handle_duplicates")⟩),
  ("fill_missing_values",
    ⟨["file_path", "file_output_dir", "output_filename", "column_name", "fill_value", "sheet_name"],
      runWrite "file_output_dir" "An unexpected error occurred while filling missing values: " (e.writeBody "fill_missing_values")⟩),
  ("string_manipulation_in_column",
    ⟨["file_path", "file_output_dir", "output_filename", "column_name", "operation", "sheet_name"],
      runWrite "file_output_dir" "An unexpected error occurred during string manipulation: " (e.writeBody "string_manipulation_in_column")⟩),
  ("list_sheets",
    ⟨["file_path"],
      readRun "An unexpected error occurred while listing sheets: " (e.readBody "list_sheets")⟩),
  ("lookup_and_merge_columns",
    ⟨["file_path", "file_output_dir", "output_filename", "left_on_column", "right_file_path", "right_on_column", "columns_to_merge", "sheet_name", "right_sheet_name"],
      runWrite "file_output_dir" "An unexpected error occurred during the merge operation: " (e.writeBody "lookup_and_merge_columns")⟩),
  ("group_by_and_aggregate",
    ⟨["file_path", "file_output_dir", "output_filename", "group_by_column", "agg_column", "agg_functions", "sheet_name"],
      runWrite "file_output_dir" "An unexpected error occurred during the group by operation: " (e.writeBody "group_by_and_aggregate")⟩),
  ("conditional_value_column",
    ⟨["file_path", "file_output_dir", "output_filename", "new_column_name", "source_column", "operator", "value", "true_value", "false_value", "sheet_name"],
      runWrite "file_output_dir" "An unexpected error occurred while creating conditional column: " (e.writeBody "conditional_value_column")⟩),
  ("create_sheet",
    ⟨["file_path", "file_output_dir", "output_filename", "new_sheet_name"],
      runWrite "file_output_dir" "An unexpected error occurred while creating the sheet: " (e.writeBody "create_sheet")⟩),
  ("delete_sheet",
    ⟨["file_path", "file_output_dir", "output_filename", "sheet_to_delete"],
      runWrite "file_output_dir" "An unexpected error occurred while deleting the sheet: " (e.writeBody "delete_sheet")⟩),
  ("duplicate_sheet",
    ⟨["file_path", "file_output_dir", "output_filename", "source_sheet", "new_sheet_name"],
      runWrite "file_output_dir" "An unexpected error occurred while duplicating the sheet: " (e.writeBody "duplicate_sheet")⟩),
  ("apply_conditional_formatting",
    ⟨["file_path", "file_output_dir", "output_filename", "column_name", "operator", "value", "color", "sheet_name"],
      runWrite "file_output_dir" "An unexpected error occurred while applying conditional formatting: " (e.writeBody "apply_conditional_formatting")⟩)
]

/-- Lookup in `_TOOL_IMPLEMENTATIONS` (src/tools.py line 677): the dict built
from `TOOLS`, keyed by schema name. -/
def lookupTool (reg : List (String × Tool)) (name : String) : Option Tool :=
  match reg with
  | [] => none
  | (k, t) :: rest => if k = name then some t else lookupTool rest name

/-- src/tools.py line 702: `\x7bk: v for k, v in full_params.items() if k in
accepted_params\x7d`, where `full_params = \x7b**context, **parameters\x7d`
(line 699). -/
def params_to_pass (accepted : List String) (context parameters : Dict) : Dict :=
  (dictMerge context parameters).filter fun kv => accepted.contains kv.1

/-- src/tools.py lines 683-704: `execute_tool`.  Unknown names return (not
raise) the does-not-exist error observation; otherwise the merged parameters
are filtered to the implementation's accepted names and the implementation is
invoked.  A non-dict `parameters` raises a `TypeError` at the merge (after the
registry check), modelled as `Except.error`.  The second component is the list
of files the invocation wrote. -/
def execute_tool (e : Env) (tool_name : String) (parameters : Val) (context : Dict) :
    Except String Dict × List String :=
  match lookupTool (mkRegistry e) tool_name with
  | none => (.ok [("error", .vStr ("Tool '" ++ tool_name ++ "' does not exist."))], [])
  | some tool =>
    match parameters with
    | .vDict ps => tool.run (params_to_pass tool.accepted context ps)
    | _ => (.error "argument after ** must be a mapping", [])

/-- src/agent.py lines 75-79: the try/except around `tools.execute_tool` that
turns any exception raised during tool execution into the error observation
`\x7b"error": f"Tool '\x7btool_name\x7d' failed with error: \x7be\x7d"\x7d`. -/
def dispatchObservation (e : Env) (tool_name : String) (parameters : Val) (context : Dict) : Dict :=
  match (execute_tool e tool_name parameters context).1 with
  | .ok d => d
  | .error err => [("error", .vStr ("Tool '" ++ tool_name ++ "' failed with error: " ++ err))]

-- ## Agent loop (src/agent.py)

/-- One transcript entry of `conversation_history`. -/
structure Message where
  role : String
  content : String
deriving DecidableEq

/-- One `current_step` dict (src/agent.py lines 59, 70, 84): the thought, the
raw `tool_call` value when one was recorded, and the serialized observation
when a tool ran. -/
structure StepRec where
  thought : Val
  tool_call : Option Val
  observation : Option String

/-- What `run_agent_task` returns (`answer`, `steps`, `observations`) plus two
ghost outputs observing local loop state: the final `conversation_history`
and the number of `_call_llm` invocations performed. -/
structure AgentOutcome where
  answer : Val
  steps : List StepRec
  observations : List Dict
  history : List Message
  llmCalls : Nat

/-- The opaque collaborators of the loop: `_call_llm` (which may raise, e.g. a
transport failure), `json.loads` (whose failure to parse is `none`; a
successful parse of the expected object shape is the dict), `json.dumps`, and
the tool-body semantics. -/
structure LoopCfg where
  llm : List Message → Except String String
  parseJson : String → Option Dict
  dumps : Dict → String
  env : Env

/-- src/agent.py lines 49-92: the body of `for i in range(max_steps)` plus the
post-loop return, as structural recursion on the remaining iterations.  Each
iteration: call the LLM (a raised exception hits the outer `except` and
returns the unexpected-error answer); append the raw response to the
transcript BEFORE parsing; a parse failure likewise returns the
unexpected-error answer; a `final_answer` key returns at once after appending
the thought-only step; a missing/falsy `tool_call` returns the
not-sure answer without appending the step; a truthy non-dict `tool_call`
raises `AttributeError` at `.get` into the outer `except`; otherwise the tool
is dispatched, the observation recorded and fed back, and the loop
continues. -/
def runLoop (cfg : LoopCfg) (tool_context : Dict) :
    Nat → List Message → List StepRec → List Dict → Nat → AgentOutcome
  | 0, history, steps, observations, calls =>
    ⟨.vStr "I seem to be stuck in a loop.", steps, observations, history, calls⟩
  | fuel + 1, history, steps, observations, calls =>
    match cfg.llm history with
    | .error _ =>
      ⟨.vStr "I encountered an unexpected error.", steps, observations, history, calls + 1⟩
    | .ok raw =>
      let history := history ++ [⟨"assistant", raw⟩]
      match cfg.parseJson raw with
      | none =>
        ⟨.vStr "I encountered an unexpected error.", steps, observations, history, calls + 1⟩
      | some resp =>
        let thought := (dlookup resp "thought").getD (.vStr "(No thought provided)")
        match dlookup resp "final_answer" with
        | some ans =>
          ⟨ans, steps ++ [⟨thought, none, none⟩], observations, history, calls + 1⟩
        | none =>
          let tc := dlookup resp "tool_call"
          if (tc.map pyTruthy).getD false = false then
            ⟨.vStr "I am not sure how to proceed.", steps, observations, history, calls + 1⟩
          else
            match tc with
            | some (.vDict tcd) =>
              let tool_name := pyStrOfVal ((dlookup tcd "tool_name").getD .vNull)
              let parameters := (dlookup tcd "parameters").getD (.vDict [])
              let observation_dict := dispatchObservation cfg.env tool_name parameters tool_context
              let observation := cfg.dumps observation_dict
              runLoop cfg tool_context fuel
                (history ++ [⟨"user", "Observation: " ++ observation⟩])
                (steps ++ [⟨thought, tc, some observation⟩])
                (observations ++ [observation_dict])
                (calls + 1)
            | _ =>
              ⟨.vStr "I encountered an unexpected error.", steps, observations, history, calls + 1⟩

/-- src/agent.py lines 97-118: `_create_system_prompt`, with
`json.dumps(tool_schemas, indent=2)` supplied as `tools_schema_str`. -/
def _create_system_prompt (tools_schema_str : String) : String :=
  "You are a smart agent that can solve user requests by breaking them down into a series of steps using the available tools.\n\nHere is the list of tools available to you in a JSON schema format:\n"
    ++ tools_schema_str
    ++ "\n\nYou must respond in a specific JSON format with two possible keys:\n1. `thought`: Your reasoning and plan for the next step.\n2. `tool_call`: The specific tool to execute for this step. The `tool_name` must be one of the names from the schema. The `parameters` must adhere to the schema for that tool.\n\nOR\n\n1. `thought`: Your reasoning for why you are finished.\n2. `final_answer`: A concise, natural language response to the user's original request, based on your observations.\n\nA key first step for many tasks is to use `get_data_summary` to understand the file's structure before trying to access columns.\nAfter receiving an \"Observation\", you must decide on the next step: either another `tool_call` or a `final_answer`.\n"

/-- src/agent.py lines 32-36: the seeded transcript (system prompt, then the
user request naming the file). -/
def initial_history (tools_schema_str user_input file_path : String) : List Message :=
  [⟨"system", _create_system_prompt tools_schema_str⟩,
   ⟨"user", "User Request: \"" ++ user_input ++ "\"\nFile to be used: \"" ++ file_path ++ "\""⟩]

/-- src/agent.py lines 42-46: the trusted context dictionary passed to the
tool executor. -/
def tool_context_of (file_path chart_output_dir file_output_dir : String) : Dict :=
  [("file_path", .vStr file_path),
   ("chart_output_dir", .vStr chart_output_dir),
   ("file_output_dir", .vStr file_output_dir)]

/-- src/agent.py lines 26-92: `run_agent_task`.  Seeds the transcript with the
system prompt and the user request, fixes the trusted `tool_context` from the
caller-supplied paths, and runs at most `max_steps = 5` iterations. -/
def run_agent_task (cfg : LoopCfg) (tools_schema_str user_input file_path chart_output_dir file_output_dir : String) :
    AgentOutcome :=
  runLoop cfg (tool_context_of file_path chart_output_dir file_output_dir) 5
    (initial_history tools_schema_str user_input file_path) [] [] 0

-- ## Dispatcher lemmas

/-- The arguments the dispatcher passes: each accepted key gets the
LLM-declared value when present, else the context value; keys outside the
accepted set are dropped. -/
theorem dlookup_params_to_pass (accepted : List String) (context ps : Dict) (k : String) :
    dlookup (params_to_pass accepted context ps) k =
      if accepted.contains k then optOr (dlookup ps k) (dlookup context k) else none := by
  unfold params_to_pass
  rw [dlookup_filter (dictMerge context ps) (fun x => accepted.contains x) k,
    dlookup_dictMerge]

-- Shared concrete instances used by the witness theorems.

/-- A concrete tool-body semantics: every body succeeds with
`\x7b"success": true\x7d`, and every write body writes exactly the output path
it was given (as `to_excel`, `savefig` and `workbook.save` do). -/
def envTriv : Env where
  readBody := fun _ _ => .ok [("success", .vBool true)]
  writeBody := fun _ p _ => (.ok [("success", .vBool true)], [p])
  chartDefaultName := "chart_0.png"

/-- A concrete trusted execution context, as built at src/agent.py lines 42-46. -/
def ctxW : Dict :=
  [("file_path", .vStr "/data/in.xlsx"),
   ("chart_output_dir", .vStr "/safe/charts"),
   ("file_output_dir", .vStr "/safe/out")]

-- ## Claims

/-- C2: for every registered tool name, declaredParameters mapping and context
mapping, the dispatcher invokes the implementation with exactly the merge of
context and declaredParameters (declaredParameters winning on shared keys)
restricted to the implementation's accepted parameter names; every other key
is discarded silently. -/
theorem C2_merge_filter_projection (e : Env) (name : String) (tool : Tool)
    (ps context : Dict) (k : String)
    (hreg : lookupTool (mkRegistry e) name = some tool) :
    execute_tool e name (.vDict ps) context = tool.run (params_to_pass tool.accepted context ps) ∧
    dlookup (params_to_pass tool.accepted context ps) k =
      (if tool.accepted.contains k then optOr (dlookup ps k) (dlookup context k) else none) := by
  constructor
  · unfold execute_tool
    rw [hreg]
  · exact dlookup_params_to_pass tool.accepted context ps k

/-- C2 witness: `list_sheets` accepts only `file_path`; the `sheet_name` the
LLM declared is discarded and the context `file_path` is passed through. -/
theorem C2_witness :
    execute_tool envTriv "list_sheets" (.vDict [("sheet_name", Val.vStr "S")]) ctxW =
      (.ok [("success", Val.vBool true)], []) ∧
    dlookup (params_to_pass ["file_path"] ctxW [("sheet_name", Val.vStr "S")]) "file_path" =
      some (Val.vStr "/data/in.xlsx") :=
  C2_merge_filter_projection envTriv "list_sheets"
    ⟨["file_path"], readRun "An unexpected error occurred while listing sheets: " (envTriv.readBody "list_sheets")⟩
    [("sheet_name", Val.vStr "S")] ctxW "file_path" rfl

/-- C3: for every tool name, parameter value and context, an exception raised
during tool execution is caught at the dispatch boundary (src/agent.py lines
75-79) and converted into the observation
`\x7berror: "Tool '<name>' failed with error: <message>"\x7d`; a normal result
passes through unchanged, so no exception escapes. -/
theorem C3_no_exception_escapes (e : Env) (name : String) (parameters : Val) (context : Dict) :
    (∃ d w, execute_tool e name parameters context = (.ok d, w) ∧
      dispatchObservation e name parameters context = d) ∨
    (∃ msg w, execute_tool e name parameters context = (.error msg, w) ∧
      dispatchObservation e name parameters context =
        [("error", .vStr ("Tool '" ++ name ++ "' failed with error: " ++ msg))]) := by
  rcases hx : execute_tool e name parameters context with ⟨r, w⟩
  cases r with
  | ok d =>
    exact Or.inl ⟨d, w, rfl, by simp [dispatchObservation, hx]⟩
  | error msg =>
    exact Or.inr ⟨msg, w, rfl, by simp [dispatchObservation, hx]⟩

/-- C5: for every tool name absent from the registry, and any parameters and
context, `execute_tool` returns (never raises) the error observation
`\x7berror: "Tool '<name>' does not exist."\x7d`. -/
theorem C5_unknown_tool (e : Env) (name : String) (parameters : Val) (context : Dict)
    (habs : lookupTool (mkRegistry e) name = none) :
    execute_tool e name parameters context =
      (.ok [("error", .vStr ("Tool '" ++ name ++ "' does not exist."))], []) := by
  unfold execute_tool
  rw [habs]

/-- C5 witness: a name outside the registry yields exactly the
does-not-exist observation. -/
theorem C5_witness :
    execute_tool envTriv "make_coffee" (.vDict []) ctxW =
      (.ok [("error", Val.vStr "Tool 'make_coffee' does not exist.")], []) :=
  C5_unknown_tool envTriv "make_coffee" (.vDict []) ctxW rfl

-- Helper lemmas for the path-safety claims.

theorem getSafePath_bad (dir fn : String)
    (hbad : strContains fn ".." = true ∨ strStartsWith fn "/" = true) :
    _get_safe_path dir fn = .error (invalidFilenameMsg fn) := by
  unfold _get_safe_path
  rcases hbad with h | h <;> simp [h]

theorem runWrite_bad (dirKey pre : String)
    (body : String → Dict → Except String Dict × List String)
    (args : Dict) (dir fn : String)
    (hdir : dlookup args dirKey = some (.vStr dir))
    (hfn : dlookup args "output_filename" = some (.vStr fn))
    (hbad : strContains fn ".." = true ∨ strStartsWith fn "/" = true) :
    runWrite dirKey pre body args = (.error (invalidFilenameMsg fn), []) := by
  unfold runWrite
  rw [hdir, hfn]
  simp only []
  rw [getSafePath_bad dir fn hbad]

theorem runCreateChart_bad (defaultName pre : String)
    (body : String → Dict → Except String Dict × List String)
    (args : Dict) (dir fn : String)
    (hdir : dlookup args "chart_output_dir" = some (.vStr dir))
    (hfn : dlookup args "output_filename" = some (.vStr fn))
    (hbad : strContains fn ".." = true ∨ strStartsWith fn "/" = true) :
    runCreateChart defaultName pre body args = (.error (invalidFilenameMsg fn), []) := by
  unfold runCreateChart
  rw [hdir]
  simp only []
  rw [hfn]
  simp only []
  rw [getSafePath_bad dir fn hbad]

/-- C8: a write tool given an output filename with a parent-directory
traversal segment, or an absolute output filename, raises the
path-validation `ValueError` before its body runs: the result is an error for
EVERY possible body, no file at all is written, and through the dispatcher
(shown for `filter_rows`, the spec scenario) the observation is the
structured error record. -/
theorem C8_unsafe_output_path (dirKey pre : String)
    (body : String → Dict → Except String Dict × List String)
    (args : Dict) (dir fn : String) (e : Env) (ps context : Dict) (dir2 : String)
    (dName pre2 : String) (body2 : String → Dict → Except String Dict × List String)
    (args2 : Dict) (cdir : String)
    (hdir : dlookup args dirKey = some (.vStr dir))
    (hfn : dlookup args "output_filename" = some (.vStr fn))
    (hbad : strContains fn ".." = true ∨ strStartsWith fn "/" = true)
    (hps : dlookup ps "output_filename" = some (.vStr fn))
    (hpsdir : dlookup ps "file_output_dir" = none)
    (hctx : dlookup context "file_output_dir" = some (.vStr dir2))
    (hcdir : dlookup args2 "chart_output_dir" = some (.vStr cdir))
    (hcfn : dlookup args2 "output_filename" = some (.vStr fn)) :
    _get_safe_path dir fn = .error (invalidFilenameMsg fn) ∧
    runWrite dirKey pre body args = (.error (invalidFilenameMsg fn), []) ∧
    runCreateChart dName pre2 body2 args2 = (.error (invalidFilenameMsg fn), []) ∧
    execute_tool e "filter_rows" (.vDict ps) context = (.error (invalidFilenameMsg fn), []) ∧
    dispatchObservation e "filter_rows" (.vDict ps) context =
      [("error", .vStr ("Tool 'filter_rows' failed with error: " ++ invalidFilenameMsg fn))] := by
  have hreg : lookupTool (mkRegistry e) "filter_rows" =
      some ⟨["file_path", "file_output_dir", "output_filename", "column_name", "operator", "value", "sheet_name"],
        runWrite "file_output_dir" "An unexpected error occurred while filtering rows: " (e.writeBody "filter_rows")⟩ := rfl
  have hacc : List.contains ["file_path", "file_output_dir", "output_filename", "column_name", "operator", "value", "sheet_name"] "file_output_dir" = true := by decide
  have hacc2 : List.contains ["file_path", "file_output_dir", "output_filename", "column_name", "operator", "value", "sheet_name"] "output_filename" = true := by decide
  have hx : execute_tool e "filter_rows" (.vDict ps) context =
      (.error (invalidFilenameMsg fn), []) := by
    unfold execute_tool
    rw [hreg]
    refine runWrite_bad _ _ _ _ dir2 fn ?_ ?_ hbad
    · rw [dlookup_params_to_pass, hacc, hpsdir, hctx]
      rfl
    · rw [dlookup_params_to_pass, hacc2, hps]
      rfl
  refine ⟨getSafePath_bad dir fn hbad, runWrite_bad dirKey pre body args dir fn hdir hfn hbad,
    runCreateChart_bad dName pre2 body2 args2 cdir fn hcdir hcfn hbad, hx, ?_⟩
  simp [dispatchObservation, hx]

/-- C8 witness: the spec scenario `"../evil.xlsx"` is rejected, nothing is
written, and the observation is the error record. -/
theorem C8_witness :
    _get_safe_path "/safe/out" "../evil.xlsx" = .error (invalidFilenameMsg "../evil.xlsx") ∧
    runWrite "file_output_dir" "An unexpected error occurred while filtering rows: "
        (envTriv.writeBody "filter_rows")
        [("file_output_dir", Val.vStr "/safe/out"), ("output_filename", Val.vStr "../evil.xlsx")] =
      (.error (invalidFilenameMsg "../evil.xlsx"), []) ∧
    runCreateChart "chart_0.png" "An unexpected error occurred while creating chart: "
        (envTriv.writeBody "create_chart")
        [("chart_output_dir", Val.vStr "/safe/charts"), ("output_filename", Val.vStr "../evil.xlsx")] =
      (.error (invalidFilenameMsg "../evil.xlsx"), []) ∧
    execute_tool envTriv "filter_rows" (.vDict [("output_filename", Val.vStr "../evil.xlsx")]) ctxW =
      (.error (invalidFilenameMsg "../evil.xlsx"), []) ∧
    dispatchObservation envTriv "filter_rows" (.vDict [("output_filename", Val.vStr "../evil.xlsx")]) ctxW =
      [("error", Val.vStr ("Tool 'filter_rows' failed with error: " ++ invalidFilenameMsg "../evil.xlsx"))] :=
  C8_unsafe_output_path "file_output_dir" "An unexpected error occurred while filtering rows: "
    (envTriv.writeBody "filter_rows")
    [("file_output_dir", Val.vStr "/safe/out"), ("output_filename", Val.vStr "../evil.xlsx")]
    "/safe/out" "../evil.xlsx" envTriv [("output_filename", Val.vStr "../evil.xlsx")] ctxW "/safe/out"
    "chart_0.png" "An unexpected error occurred while creating chart: "
    (envTriv.writeBody "create_chart")
    [("chart_output_dir", Val.vStr "/safe/charts"), ("output_filename", Val.vStr "../evil.xlsx")]
    "/safe/charts"
    rfl rfl (Or.inl (by decide)) rfl rfl rfl rfl rfl

/-- The declared-parameters dict of a hijacking tool call: the LLM re-declares
the trusted `file_output_dir`. -/
def psAttack : Dict :=
  [("file_output_dir", .vStr "/attacker"),
   ("output_filename", .vStr "evil.xlsx"),
   ("column_name", .vStr "A"),
   ("operator", .vStr "=="),
   ("value", .vStr "x")]

/-- C1 counterexample: with the trusted context naming `/safe/out` as the file
output directory, an LLM-declared parameter set that re-declares
`file_output_dir` overrides the injected context value (the merge lets
declaredParameters win and `file_output_dir` is in the accepted set of
`filter_rows`), the call succeeds, and the file is written to
`/attacker/evil.xlsx`, outside the sandboxed output directory — so
LLM-controlled input CAN substitute its own values for the injected context
fields and redirect a write outside the sandbox. -/
theorem C1_counterexample :
    dlookup ctxW "file_output_dir" = some (Val.vStr "/safe/out") ∧
    dlookup
        (params_to_pass
          ["file_path", "file_output_dir", "output_filename", "column_name", "operator", "value", "sheet_name"]
          ctxW psAttack) "file_output_dir" = some (Val.vStr "/attacker") ∧
    (execute_tool envTriv "filter_rows" (.vDict psAttack) ctxW).1 =
      .ok [("success", Val.vBool true)] ∧
    (execute_tool envTriv "filter_rows" (.vDict psAttack) ctxW).2 = ["/attacker/evil.xlsx"] ∧
    strStartsWith "/attacker/evil.xlsx" "/safe/out" = false :=
  ⟨rfl, rfl, rfl, rfl, rfl⟩

/-- C1 (amended): the trusted ExecutionContext fields reach the tool
implementation unchanged only for keys the LLM-declared parameter set does
not itself bind: since the merge gives declaredParameters precedence and the
context keys are among the implementations' accepted parameters, an
LLM-declared parameter that rebinds a context key (e.g. `file_output_dir`)
substitutes its own value and can redirect a write tool outside the sandboxed
output directories; only the filename, never the directory, is validated. -/
theorem C1_amended_context_reaches_tool (e : Env) (name : String) (tool : Tool)
    (ps context : Dict) (k : String)
    (hreg : lookupTool (mkRegistry e) name = some tool)
    (hk : dlookup ps k = none) :
    execute_tool e name (.vDict ps) context = tool.run (params_to_pass tool.accepted context ps) ∧
    dlookup (params_to_pass tool.accepted context ps) k =
      (if tool.accepted.contains k then dlookup context k else none) := by
  constructor
  · unfold execute_tool
    rw [hreg]
  · rw [dlookup_params_to_pass, hk]
    rcases dlookup context k <;> rfl

/-- C1 witness: when the LLM does not re-declare `file_output_dir`, the
caller-supplied context value is the one `filter_rows` receives. -/
theorem C1_witness :
    execute_tool envTriv "filter_rows" (.vDict [("output_filename", Val.vStr "ok.xlsx")]) ctxW =
      (Tool.mk
        ["file_path", "file_output_dir", "output_filename", "column_name", "operator", "value", "sheet_name"]
        (runWrite "file_output_dir" "An unexpected error occurred while filtering rows: "
          (envTriv.writeBody "filter_rows"))).run
        (params_to_pass
          ["file_path", "file_output_dir", "output_filename", "column_name", "operator", "value", "sheet_name"]
          ctxW [("output_filename", Val.vStr "ok.xlsx")]) ∧
    dlookup
        (params_to_pass
          ["file_path", "file_output_dir", "output_filename", "column_name", "operator", "value", "sheet_name"]
          ctxW [("output_filename", Val.vStr "ok.xlsx")]) "file_output_dir" =
      some (Val.vStr "/safe/out") :=
  C1_amended_context_reaches_tool envTriv "filter_rows"
    ⟨["file_path", "file_output_dir", "output_filename", "column_name", "operator", "value", "sheet_name"],
      runWrite "file_output_dir" "An unexpected error occurred while filtering rows: "
        (envTriv.writeBody "filter_rows")⟩
    [("output_filename", Val.vStr "ok.xlsx")] ctxW "file_output_dir" rfl rfl

-- ## Agent-loop lemmas

/-- The transcript only ever grows: every loop outcome's history extends the
history the loop started from. -/
theorem runLoop_history_extends (cfg : LoopCfg) (ctx : Dict) :
    ∀ fuel hist steps obs calls,
      hist <+: (runLoop cfg ctx fuel hist steps obs calls).history := by
  intro fuel
  induction fuel with
  | zero =>
    intro hist steps obs calls
    simp [runLoop]
  | succ n ih =>
    intro hist steps obs calls
    unfold runLoop
    cases hllm : cfg.llm hist with
    | error e => simp
    | ok raw =>
      simp only []
      cases hp : cfg.parseJson raw with
      | none => simp
      | some resp =>
        simp only []
        cases hfa : dlookup resp "final_answer" with
        | some ans => simp
        | none =>
          simp only []
          split
          · simp
          · split
            · exact ((List.prefix_append _ _).trans (List.prefix_append _ _)).trans (ih _ _ _ _)
            · simp

/-- The loop makes at most `calls + fuel` LLM calls: each iteration performs
exactly one `_call_llm` before any branch. -/
theorem runLoop_llmCalls_le (cfg : LoopCfg) (ctx : Dict) :
    ∀ fuel hist steps obs calls,
      (runLoop cfg ctx fuel hist steps obs calls).llmCalls ≤ calls + fuel := by
  intro fuel
  induction fuel with
  | zero =>
    intro hist steps obs calls
    simp [runLoop]
  | succ n ih =>
    intro hist steps obs calls
    unfold runLoop
    cases hllm : cfg.llm hist with
    | error e => simp
    | ok raw =>
      simp only []
      cases hp : cfg.parseJson raw with
      | none => simp
      | some resp =>
        simp only []
        cases hfa : dlookup resp "final_answer" with
        | some ans => simp
        | none =>
          simp only []
          split
          · simp
          · split
            · exact le_trans (ih _ _ _ _) (by omega)
            · simp

/-- When every LLM turn parses to a decision with a truthy dict `tool_call`
and no `final_answer`, every iteration dispatches and recurses, so the loop
runs its whole budget: the stuck answer, one step, one observation and one
LLM call per iteration. -/
theorem runLoop_exhausts_budget (cfg : LoopCfg) (ctx : Dict)
    (H : ∀ hist, ∃ raw resp tcd,
      cfg.llm hist = .ok raw ∧ cfg.parseJson raw = some resp ∧
      dlookup resp "final_answer" = none ∧
      dlookup resp "tool_call" = some (.vDict tcd) ∧ pyTruthy (.vDict tcd) = true) :
    ∀ fuel hist steps obs calls,
      (runLoop cfg ctx fuel hist steps obs calls).answer = .vStr "I seem to be stuck in a loop." ∧
      (runLoop cfg ctx fuel hist steps obs calls).steps.length = steps.length + fuel ∧
      (runLoop cfg ctx fuel hist steps obs calls).observations.length = obs.length + fuel ∧
      (runLoop cfg ctx fuel hist steps obs calls).llmCalls = calls + fuel := by
  intro fuel
  induction fuel with
  | zero =>
    intro hist steps obs calls
    simp [runLoop]
  | succ n ih =>
    intro hist steps obs calls
    obtain ⟨raw, resp, tcd, hllm, hp, hfa, htc, hpt⟩ := H hist
    unfold runLoop
    rw [hllm]
    simp only []
    rw [hp]
    simp only []
    rw [hfa]
    simp only [htc, Option.map_some', Option.getD_some, hpt]
    simp only [Bool.true_eq_false, if_false]
    have := ih (hist ++ [⟨"assistant", raw⟩] ++
        [⟨"user", "Observation: " ++ cfg.dumps (dispatchObservation cfg.env
          (pyStrOfVal ((dlookup tcd "tool_name").getD .vNull))
          ((dlookup tcd "parameters").getD (.vDict [])) ctx)⟩])
      (steps ++ [⟨(dlookup resp "thought").getD (.vStr "(No thought provided)"),
        some (.vDict tcd), some (cfg.dumps (dispatchObservation cfg.env
          (pyStrOfVal ((dlookup tcd "tool_name").getD .vNull))
          ((dlookup tcd "parameters").getD (.vDict [])) ctx))⟩])
      (obs ++ [dispatchObservation cfg.env
          (pyStrOfVal ((dlookup tcd "tool_name").getD .vNull))
          ((dlookup tcd "parameters").getD (.vDict [])) ctx])
      (calls + 1)
    refine ⟨this.1, ?_, ?_, ?_⟩
    · rw [this.2.1]; simp; omega
    · rw [this.2.2.1]; simp; omega
    · rw [this.2.2.2]; omega

/-- C4: for every task the loop performs at most 5 LLM calls, and when the
LLM never produces a terminal decision (every turn parses to a truthy dict
`tool_call` without `final_answer`) all 5 iterations run and the task returns
the answer "I seem to be stuck in a loop." together with the 5 accumulated
steps and observations, without raising. -/
theorem C4_step_budget (cfg : LoopCfg)
    (tools_schema_str user_input file_path chart_output_dir file_output_dir : String) :
    (run_agent_task cfg tools_schema_str user_input file_path chart_output_dir file_output_dir).llmCalls ≤ 5 ∧
    ((∀ hist, ∃ raw resp tcd,
        cfg.llm hist = .ok raw ∧ cfg.parseJson raw = some resp ∧
        dlookup resp "final_answer" = none ∧
        dlookup resp "tool_call" = some (.vDict tcd) ∧ pyTruthy (.vDict tcd) = true) →
      (run_agent_task cfg tools_schema_str user_input file_path chart_output_dir file_output_dir).answer =
          .vStr "I seem to be stuck in a loop." ∧
      (run_agent_task cfg tools_schema_str user_input file_path chart_output_dir file_output_dir).steps.length = 5 ∧
      (run_agent_task cfg tools_schema_str user_input file_path chart_output_dir file_output_dir).observations.length = 5 ∧
      (run_agent_task cfg tools_schema_str user_input file_path chart_output_dir file_output_dir).llmCalls = 5) := by
  constructor
  · exact runLoop_llmCalls_le cfg _ 5 _ [] [] 0
  · intro H
    exact runLoop_exhausts_budget cfg _ H 5 _ [] [] 0

/-- C4 witness: a stub LLM that always requests `list_sheets` exhausts the
budget with exactly 5 LLM calls, 5 steps and 5 observations. -/
theorem C4_witness :
    (run_agent_task
      ⟨fun _ => .ok "r",
       fun _ => some [("thought", Val.vStr "t"),
         ("tool_call", Val.vDict [("tool_name", Val.vStr "list_sheets")])],
       fun _ => "o", envTriv⟩ "s" "u" "/data/in.xlsx" "/safe/charts" "/safe/out").llmCalls ≤ 5 ∧
    ((run_agent_task
      ⟨fun _ => .ok "r",
       fun _ => some [("thought", Val.vStr "t"),
         ("tool_call", Val.vDict [("tool_name", Val.vStr "list_sheets")])],
       fun _ => "o", envTriv⟩ "s" "u" "/data/in.xlsx" "/safe/charts" "/safe/out").answer =
        Val.vStr "I seem to be stuck in a loop." ∧
      (run_agent_task
      ⟨fun _ => .ok "r",
       fun _ => some [("thought", Val.vStr "t"),
         ("tool_call", Val.vDict [("tool_name", Val.vStr "list_sheets")])],
       fun _ => "o", envTriv⟩ "s" "u" "/data/in.xlsx" "/safe/charts" "/safe/out").steps.length = 5 ∧
      (run_agent_task
      ⟨fun _ => .ok "r",
       fun _ => some [("thought", Val.vStr "t"),
         ("tool_call", Val.vDict [("tool_name", Val.vStr "list_sheets")])],
       fun _ => "o", envTriv⟩ "s" "u" "/data/in.xlsx" "/safe/charts" "/safe/out").observations.length = 5 ∧
      (run_agent_task
      ⟨fun _ => .ok "r",
       fun _ => some [("thought", Val.vStr "t"),
         ("tool_call", Val.vDict [("tool_name", Val.vStr "list_sheets")])],
       fun _ => "o", envTriv⟩ "s" "u" "/data/in.xlsx" "/safe/charts" "/safe/out").llmCalls = 5) :=
  ⟨(C4_step_budget _ "s" "u" "/data/in.xlsx" "/safe/charts" "/safe/out").1,
   (C4_step_budget _ "s" "u" "/data/in.xlsx" "/safe/charts" "/safe/out").2
    (fun _ => ⟨"r", [("thought", Val.vStr "t"),
      ("tool_call", Val.vDict [("tool_name", Val.vStr "list_sheets")])],
      [("tool_name", Val.vStr "list_sheets")], rfl, rfl, rfl, rfl, rfl⟩)⟩

/-- One-iteration reduction: a turn whose parsed response holds a
`final_answer` key returns at once, appending only the thought-only step. -/
theorem runLoop_final_step (cfg : LoopCfg) (ctx : Dict)
    (fuel : Nat) (hist : List Message) (steps : List StepRec) (obs : List Dict) (calls : Nat)
    (raw : String) (resp : Dict) (ans : Val)
    (hllm : cfg.llm hist = .ok raw)
    (hp : cfg.parseJson raw = some resp)
    (hfa : dlookup resp "final_answer" = some ans) :
    runLoop cfg ctx (fuel + 1) hist steps obs calls =
      ⟨ans, steps ++ [⟨(dlookup resp "thought").getD (.vStr "(No thought provided)"), none, none⟩],
        obs, hist ++ [⟨"assistant", raw⟩], calls + 1⟩ := by
  unfold runLoop
  rw [hllm]
  simp only []
  rw [hp]
  simp only []
  rw [hfa]

/-- One-iteration reduction: a turn whose parsed response has no
`final_answer` and a missing or falsy `tool_call` returns the not-sure answer
without touching steps or observations. -/
theorem runLoop_neither_step (cfg : LoopCfg) (ctx : Dict)
    (fuel : Nat) (hist : List Message) (steps : List StepRec) (obs : List Dict) (calls : Nat)
    (raw : String) (resp : Dict)
    (hllm : cfg.llm hist = .ok raw)
    (hp : cfg.parseJson raw = some resp)
    (hfa : dlookup resp "final_answer" = none)
    (hfalsy : ((dlookup resp "tool_call").map pyTruthy).getD false = false) :
    runLoop cfg ctx (fuel + 1) hist steps obs calls =
      ⟨.vStr "I am not sure how to proceed.", steps, obs,
        hist ++ [⟨"assistant", raw⟩], calls + 1⟩ := by
  unfold runLoop
  rw [hllm]
  simp only []
  rw [hp]
  simp only []
  rw [hfa]
  simp only []
  rw [if_pos hfalsy]

/-- C6: the raw LLM response is appended to the transcript verbatim as an
assistant turn before any parsing (the appended turn is in the final
transcript on every branch), and a syntactically invalid response (parse
failure) terminates the task at once with the fixed answer "I encountered an
unexpected error." while the transcript still ends with the raw text. -/
theorem C6_invalid_json_terminates (cfg : LoopCfg) (ctx : Dict)
    (fuel : Nat) (hist : List Message) (steps : List StepRec) (obs : List Dict) (calls : Nat)
    (raw : String) (hllm : cfg.llm hist = .ok raw) :
    ((hist ++ [⟨"assistant", raw⟩]) <+:
      (runLoop cfg ctx (fuel + 1) hist steps obs calls).history) ∧
    (cfg.parseJson raw = none →
      runLoop cfg ctx (fuel + 1) hist steps obs calls =
        ⟨.vStr "I encountered an unexpected error.", steps, obs,
          hist ++ [⟨"assistant", raw⟩], calls + 1⟩) := by
  constructor
  · unfold runLoop
    rw [hllm]
    simp only []
    cases hp : cfg.parseJson raw with
    | none => simp
    | some resp =>
      simp only []
      cases hfa : dlookup resp "final_answer" with
      | some ans => simp
      | none =>
        simp only []
        split
        · simp
        · split
          · exact (List.prefix_append _ _).trans (runLoop_history_extends cfg ctx _ _ _ _ _)
          · simp
  · intro hp
    unfold runLoop
    rw [hllm]
    simp only []
    rw [hp]

/-- C6 witness: an LLM turn of invalid JSON aborts with the fixed answer and
the raw text sits in the transcript as the appended assistant turn. -/
theorem C6_witness :
    (([] : List Message) ++ [⟨"assistant", "not json"⟩]) <+:
      (runLoop ⟨fun _ => .ok "not json", fun _ => none, fun _ => "", envTriv⟩ [] 5 [] [] [] 0).history ∧
    runLoop ⟨fun _ => .ok "not json", fun _ => none, fun _ => "", envTriv⟩ [] 5 [] [] [] 0 =
      ⟨.vStr "I encountered an unexpected error.", [], [], [⟨"assistant", "not json"⟩], 1⟩ :=
  ⟨(C6_invalid_json_terminates ⟨fun _ => .ok "not json", fun _ => none, fun _ => "", envTriv⟩
      [] 4 [] [] [] 0 "not json" rfl).1,
   (C6_invalid_json_terminates ⟨fun _ => .ok "not json", fun _ => none, fun _ => "", envTriv⟩
      [] 4 [] [] [] 0 "not json" rfl).2 rfl⟩

/-- C7: a parsed decision carrying `final_answer` returns immediately — the
step appended for that turn records no tool call and no observation, the
observations list is unchanged, and only one LLM call is spent on the turn;
in particular a first-turn final answer ends the task after exactly one LLM
call with no tool invocation in `steps`. -/
theorem C7_final_answer_returns (cfg : LoopCfg) (ctx : Dict)
    (fuel : Nat) (hist : List Message) (steps : List StepRec) (obs : List Dict) (calls : Nat)
    (raw : String) (resp : Dict) (ans : Val)
    (hllm : cfg.llm hist = .ok raw)
    (hp : cfg.parseJson raw = some resp)
    (hfa : dlookup resp "final_answer" = some ans) :
    runLoop cfg ctx (fuel + 1) hist steps obs calls =
      ⟨ans, steps ++ [⟨(dlookup resp "thought").getD (.vStr "(No thought provided)"), none, none⟩],
        obs, hist ++ [⟨"assistant", raw⟩], calls + 1⟩ ∧
    (∀ tss ui fp cod fod,
      cfg.llm (initial_history tss ui fp) = .ok raw →
      run_agent_task cfg tss ui fp cod fod =
        ⟨ans, [⟨(dlookup resp "thought").getD (.vStr "(No thought provided)"), none, none⟩],
          [], initial_history tss ui fp ++ [⟨"assistant", raw⟩], 1⟩) :=
  ⟨runLoop_final_step cfg ctx fuel hist steps obs calls raw resp ans hllm hp hfa,
   fun tss ui fp cod fod h2 =>
    runLoop_final_step cfg (tool_context_of fp cod fod) 4
      (initial_history tss ui fp) [] [] 0 raw resp ans h2 hp hfa⟩

/-- C7 witness: a first-turn final answer terminates after one LLM call with
a single thought-only step and no observations. -/
theorem C7_witness :
    run_agent_task
        ⟨fun _ => .ok "resp",
         fun _ => some [("thought", Val.vStr "t"), ("final_answer", Val.vStr "done")],
         fun _ => "", envTriv⟩ "s" "u" "/f.xlsx" "/c" "/o" =
      ⟨Val.vStr "done", [⟨Val.vStr "t", none, none⟩], [],
        initial_history "s" "u" "/f.xlsx" ++ [⟨"assistant", "resp"⟩], 1⟩ :=
  (C7_final_answer_returns
    ⟨fun _ => .ok "resp",
     fun _ => some [("thought", Val.vStr "t"), ("final_answer", Val.vStr "done")],
     fun _ => "", envTriv⟩ [] 0 [] [] [] 0 "resp"
    [("thought", Val.vStr "t"), ("final_answer", Val.vStr "done")] (Val.vStr "done")
    rfl rfl rfl).2 "s" "u" "/f.xlsx" "/c" "/o" rfl

/-- C9: a successfully parsed decision with neither `tool_call` nor
`final_answer` terminates the task early with "I am not sure how to
proceed.", an answer distinct from the step-budget-exhaustion answer. -/
theorem C9_neither_terminates (cfg : LoopCfg) (ctx : Dict)
    (fuel : Nat) (hist : List Message) (steps : List StepRec) (obs : List Dict) (calls : Nat)
    (raw : String) (resp : Dict)
    (hllm : cfg.llm hist = .ok raw)
    (hp : cfg.parseJson raw = some resp)
    (hfa : dlookup resp "final_answer" = none)
    (hfalsy : ((dlookup resp "tool_call").map pyTruthy).getD false = false) :
    runLoop cfg ctx (fuel + 1) hist steps obs calls =
      ⟨.vStr "I am not sure how to proceed.", steps, obs,
        hist ++ [⟨"assistant", raw⟩], calls + 1⟩ ∧
    "I am not sure how to proceed." ≠ "I seem to be stuck in a loop." :=
  ⟨runLoop_neither_step cfg ctx fuel hist steps obs calls raw resp hllm hp hfa hfalsy,
   by decide⟩

/-- C9 witness: a decision holding only a thought ends the task with the
not-sure answer. -/
theorem C9_witness :
    runLoop ⟨fun _ => .ok "r9", fun _ => some [("thought", Val.vStr "t")], fun _ => "", envTriv⟩
        [] 5 [] [] [] 0 =
      ⟨.vStr "I am not sure how to proceed.", [], [], [⟨"assistant", "r9"⟩], 1⟩ ∧
    "I am not sure how to proceed." ≠ "I seem to be stuck in a loop." :=
  C9_neither_terminates
    ⟨fun _ => .ok "r9", fun _ => some [("thought", Val.vStr "t")], fun _ => "", envTriv⟩
    [] 4 [] [] [] 0 "r9" [("thought", Val.vStr "t")] rfl rfl rfl rfl

/-- C10: on the neither-tool-call-nor-final-answer exit the turn's step record
(with its thought) is NOT appended — the returned steps are exactly the steps
accumulated before the turn — whereas the final-answer exit appends the
turn's thought-only record before returning. -/
theorem C10_neither_step_dropped (cfg : LoopCfg) (ctx : Dict)
    (fuel : Nat) (hist1 hist2 : List Message) (steps : List StepRec) (obs : List Dict) (calls : Nat)
    (raw1 raw2 : String) (resp1 resp2 : Dict) (ans : Val)
    (h1 : cfg.llm hist1 = .ok raw1)
    (p1 : cfg.parseJson raw1 = some resp1)
    (fa1 : dlookup resp1 "final_answer" = none)
    (tc1 : ((dlookup resp1 "tool_call").map pyTruthy).getD false = false)
    (h2 : cfg.llm hist2 = .ok raw2)
    (p2 : cfg.parseJson raw2 = some resp2)
    (fa2 : dlookup resp2 "final_answer" = some ans) :
    (runLoop cfg ctx (fuel + 1) hist1 steps obs calls).steps = steps ∧
    (runLoop cfg ctx (fuel + 1) hist2 steps obs calls).steps =
      steps ++ [⟨(dlookup resp2 "thought").getD (.vStr "(No thought provided)"), none, none⟩] := by
  constructor
  · rw [runLoop_neither_step cfg ctx fuel hist1 steps obs calls raw1 resp1 h1 p1 fa1 tc1]
  · rw [runLoop_final_step cfg ctx fuel hist2 steps obs calls raw2 resp2 ans h2 p2 fa2]

/-- C10 witness: the not-sure exit leaves steps empty while the final-answer
exit records the thought-only step. -/
theorem C10_witness :
    (runLoop
        ⟨fun h => match h with | [] => .ok "a" | _ => .ok "b",
         fun s => if s = "a" then some [("thought", Val.vStr "t1")]
                  else some [("final_answer", Val.vStr "fin")],
         fun _ => "", envTriv⟩ [] 5 [] [] [] 0).steps = [] ∧
    (runLoop
        ⟨fun h => match h with | [] => .ok "a" | _ => .ok "b",
         fun s => if s = "a" then some [("thought", Val.vStr "t1")]
                  else some [("final_answer", Val.vStr "fin")],
         fun _ => "", envTriv⟩ [] 5 [⟨"user", "x"⟩] [] [] 0).steps =
      [⟨Val.vStr "(No thought provided)", none, none⟩] :=
  C10_neither_step_dropped
    ⟨fun h => match h with | [] => .ok "a" | _ => .ok "b",
     fun s => if s = "a" then some [("thought", Val.vStr "t1")]
              else some [("final_answer", Val.vStr "fin")],
     fun _ => "", envTriv⟩ [] 4 [] [⟨"user", "x"⟩] [] [] 0 "a" "b"
    [("thought", Val.vStr "t1")] [("final_answer", Val.vStr "fin")] (Val.vStr "fin")
    rfl rfl rfl rfl rfl rfl rfl

end ExcelAgent
